import Mathlib

/-!
Verification of the notion-daily-log maintenance scripts.

The repository automates daily creation of dated log pages and weekly
archival of old log pages in a remote hierarchical page/block store.
This file gives a shallow embedding of the pure logic of the three
scripts (`create_daily_log.py`, `archive_last_week.py`,
`archive_single_page.py`): the block sanitizer, the order-preserving
block-copy loop, the adaptive rate limiter, the business-day
calculation and the create/skip/archive control flow.  Remote calls
are modelled by explicit environments that decide which call succeeds,
mirroring exactly how each source function reacts to a failure
(swallow, return a sentinel, or raise).
-/

namespace NotionDailyLog

/-- A remote block as read from the API, as far as the scripts inspect it:
the value of the `type` key (absent or a string; the empty string models a
falsy type value), the payload dictionary stored under the key equal to the
type string (an ordered association list, as Python dict iteration order is
insertion order), the `has_children` flag, the lazily fetched child blocks,
and the server-assigned id. -/
inductive Block (α : Type) : Type where
  | mk (btype : Option String) (content : List (String × α))
       (hasChildren : Bool) (children : List (Block α)) (bid : String) : Block α

/-- The `type` value of a block (`block.get('type')`). -/
def Block.btype : Block α → Option String
  | .mk t _ _ _ _ => t

/-- The payload dictionary of a block (`block.get(block_type, {})`). -/
def Block.content : Block α → List (String × α)
  | .mk _ c _ _ _ => c

/-- The `has_children` flag of a block. -/
def Block.hasChildren : Block α → Bool
  | .mk _ _ h _ _ => h

/-- The nested child blocks of a block (fetched lazily in the scripts). -/
def Block.children : Block α → List (Block α)
  | .mk _ _ _ ch _ => ch

/-- The server-assigned id of a block. -/
def Block.bid : Block α → String
  | .mk _ _ _ _ i => i

/-- A write-safe block produced by a sanitizer: the kind tag together with
the payload dictionary to be sent (`{'type': bt, bt: payload}`). -/
structure CleanBlock (α : Type) : Type where
  ctype : String
  payload : List (String × α)
deriving DecidableEq

/-- First value stored under a key in an association list (Python dict
lookup). -/
def lookupKey (k : String) : List (String × α) → Option α
  | [] => none
  | (k', v) :: rest => if k' = k then some v else lookupKey k rest

/-- Python `key in dict` membership test. -/
def hasKey (k : String) (l : List (String × α)) : Bool :=
  (lookupKey k l).isSome

namespace CreateDailyLog

/-- The fixed read-only field set of
`NotionWorkLogCreator.clean_block_for_copy`. -/
def readonly_fields : List String :=
  ["id", "created_time", "last_edited_time", "created_by",
   "last_edited_by", "has_children", "archived", "parent"]

/-- The payload-free block kinds of
`NotionWorkLogCreator.clean_block_for_copy`. -/
def empty_block_types : List String :=
  ["divider", "breadcrumb", "table_of_contents"]

/-- The unsupported block kinds of
`NotionWorkLogCreator.clean_block_for_copy`. -/
def unsupported_blocks : List String :=
  ["link_preview", "unsupported"]

/-- The field-copy loop of `NotionWorkLogCreator.clean_block_for_copy`
(create_daily_log.py lines 182-184): each payload entry is appended unless
its key is read-only or already present in the accumulated payload. -/
def copyRemainingFields (acc : List (String × α)) :
    List (String × α) → List (String × α)
  | [] => acc
  | (k, v) :: rest =>
      if k ∉ readonly_fields ∧ hasKey k acc = false then
        copyRemainingFields (acc ++ [(k, v)]) rest
      else
        copyRemainingFields acc rest

/-- `NotionWorkLogCreator.clean_block_for_copy` (create_daily_log.py lines
145-186): reject blocks without a truthy type, child pages/databases and
unsupported kinds; payload-free kinds map to an empty payload; otherwise
copy `rich_text` first and then every non-read-only, not yet present
payload field in order. -/
def clean_block_for_copy (b : Block α) : Option (CleanBlock α) :=
  match b.btype with
  | none => none
  | some bt =>
      if bt = "" then none
      else if bt = "child_page" ∨ bt = "child_database" then none
      else if bt ∈ unsupported_blocks then none
      else if bt ∈ empty_block_types then some ⟨bt, []⟩
      else
        let base : List (String × α) :=
          match lookupKey "rich_text" b.content with
          | some v => [("rich_text", v)]
          | none => []
        some ⟨bt, copyRemainingFields base b.content⟩

end CreateDailyLog

namespace ArchiveLastWeek

/-- The fixed read-only field set of `NotionArchiver.clean_block_for_copy`. -/
def readonly_fields : List String :=
  ["id", "created_time", "last_edited_time", "created_by",
   "last_edited_by", "has_children", "archived", "parent"]

/-- The payload-free block kinds of `NotionArchiver.clean_block_for_copy`. -/
def empty_block_types : List String :=
  ["divider", "breadcrumb", "table_of_contents"]

/-- The unsupported block kinds of `NotionArchiver.clean_block_for_copy`. -/
def unsupported_blocks : List String :=
  ["link_preview", "unsupported"]

/-- The field-copy loop of `NotionArchiver.clean_block_for_copy`
(archive_last_week.py lines 364-367). -/
def copyRemainingFields (acc : List (String × α)) :
    List (String × α) → List (String × α)
  | [] => acc
  | (k, v) :: rest =>
      if k ∉ readonly_fields ∧ hasKey k acc = false then
        copyRemainingFields (acc ++ [(k, v)]) rest
      else
        copyRemainingFields acc rest

/-- `NotionArchiver.clean_block_for_copy` (archive_last_week.py lines
329-369), textually the same algorithm as the daily-log variant. -/
def clean_block_for_copy (b : Block α) : Option (CleanBlock α) :=
  match b.btype with
  | none => none
  | some bt =>
      if bt = "" then none
      else if bt = "child_page" ∨ bt = "child_database" then none
      else if bt ∈ unsupported_blocks then none
      else if bt ∈ empty_block_types then some ⟨bt, []⟩
      else
        let base : List (String × α) :=
          match lookupKey "rich_text" b.content with
          | some v => [("rich_text", v)]
          | none => []
        some ⟨bt, copyRemainingFields base b.content⟩

end ArchiveLastWeek

namespace ArchiveSinglePage

/-- The fixed read-only field set of
`NotionSinglePageArchiver.clean_block_for_copy`. -/
def readonly_fields : List String :=
  ["id", "created_time", "last_edited_time", "created_by",
   "last_edited_by", "has_children", "archived", "parent"]

/-- The payload-free block kinds of
`NotionSinglePageArchiver.clean_block_for_copy`. -/
def empty_block_types : List String :=
  ["divider", "breadcrumb", "table_of_contents"]

/-- The unsupported block kinds of
`NotionSinglePageArchiver.clean_block_for_copy`. -/
def unsupported_blocks : List String :=
  ["link_preview", "unsupported"]

/-- The field-copy loop of `NotionSinglePageArchiver.clean_block_for_copy`
(archive_single_page.py lines 156-159). -/
def copyRemainingFields (acc : List (String × α)) :
    List (String × α) → List (String × α)
  | [] => acc
  | (k, v) :: rest =>
      if k ∉ readonly_fields ∧ hasKey k acc = false then
        copyRemainingFields (acc ++ [(k, v)]) rest
      else
        copyRemainingFields acc rest

/-- `NotionSinglePageArchiver.clean_block_for_copy` (archive_single_page.py
lines 128-161), textually the same algorithm as the other two variants. -/
def clean_block_for_copy (b : Block α) : Option (CleanBlock α) :=
  match b.btype with
  | none => none
  | some bt =>
      if bt = "" then none
      else if bt = "child_page" ∨ bt = "child_database" then none
      else if bt ∈ unsupported_blocks then none
      else if bt ∈ empty_block_types then some ⟨bt, []⟩
      else
        let base : List (String × α) :=
          match lookupKey "rich_text" b.content with
          | some v => [("rich_text", v)]
          | none => []
        some ⟨bt, copyRemainingFields base b.content⟩

end ArchiveSinglePage

namespace ArchiveLastWeek

/-- The pacing state of `RateLimiter` (archive_last_week.py lines 36-48):
the configured minimum interval, the consecutive-success streak counter and
the adaptive interval, in seconds as exact rationals.  The per-thread
last-request-time map is omitted: it is touched only by `wait_if_needed`,
which never changes the fields below. -/
structure RateLimiterState : Type where
  min_interval : ℚ
  consecutive_successes : ℕ
  adaptive_interval : ℚ
deriving DecidableEq

/-- `RateLimiter.record_success` (archive_last_week.py lines 73-83):
increment the streak; once the streak exceeds 10, multiply the adaptive
interval by 0.95 floored at the minimum interval and reset the streak. -/
def record_success (s : RateLimiterState) : RateLimiterState :=
  let n := s.consecutive_successes + 1
  if 10 < n then
    ⟨s.min_interval, 0, max (s.adaptive_interval * (19 / 20)) s.min_interval⟩
  else
    ⟨s.min_interval, n, s.adaptive_interval⟩

/-- `RateLimiter.record_failure` (archive_last_week.py lines 85-89). -/
def record_failure (s : RateLimiterState) : RateLimiterState :=
  ⟨s.min_interval, 0, min (s.adaptive_interval * (6 / 5)) 1⟩

/-- An HTTP response as far as `handle_rate_limit_error` inspects it: the
status code and the parsed integer value of the Retry-After header when
present. -/
structure HttpResponse : Type where
  status : ℕ
  retryAfterHeader : Option ℕ

/-- `RateLimiter.handle_rate_limit_error` (archive_last_week.py lines
62-71): on a 429 response, sleep for the Retry-After value (default 2
seconds), multiply the adaptive interval by 1.5 capped at 1.0 second and
return True; otherwise return False with no sleep and no state change.
The result is (returned flag, seconds slept, updated state). -/
def handle_rate_limit_error (s : RateLimiterState) (r : HttpResponse) :
    Bool × ℕ × RateLimiterState :=
  if r.status = 429 then
    let retry_after := r.retryAfterHeader.getD 2
    (true, retry_after,
     ⟨s.min_interval, s.consecutive_successes,
      min (s.adaptive_interval * (3 / 2)) 1⟩)
  else
    (false, 0, s)

end ArchiveLastWeek

namespace CreateDailyLog

/-- Python `date.weekday()` under the embedding of dates as day numbers
with day 0 a Monday: 0 = Monday .. 6 = Sunday. -/
def weekday (d : ℕ) : ℕ := d % 7

/-- The weekend test of `get_korean_date_info`
(create_daily_log.py line 48): `date.weekday() >= 5`. -/
def is_weekend (d : ℕ) : Bool := 5 ≤ weekday d

/-- The skip loop of `NotionWorkLogCreator.get_next_business_day`
(create_daily_log.py lines 64-65): advance one day at a time while the
weekday is Saturday or Sunday. -/
def skipWeekendLoop (d : ℕ) : ℕ :=
  if 5 ≤ d % 7 then skipWeekendLoop (d + 1) else d
termination_by (if 5 ≤ d % 7 then 7 - d % 7 else 0)
decreasing_by
  simp_wf
  split <;> omega

/-- `NotionWorkLogCreator.get_next_business_day` (create_daily_log.py lines
60-66): step to the next calendar day, then skip weekend days. -/
def get_next_business_day (d : ℕ) : ℕ := skipWeekendLoop (d + 1)

end CreateDailyLog

namespace ArchiveLastWeek

/-- One child created under a destination parent by the copy loop: either
an ordinary block appended by a single-block append call (carrying the
entries recursively copied into the created block when the source block
had nested children) or a child page produced by
`copy_child_page_recursive` (identified by the source block id it was
replicated from). -/
inductive DestEntry (α : Type) : Type where
  | appended (cb : CleanBlock α) (nested : List (DestEntry α)) : DestEntry α
  | childPage (srcId : String) : DestEntry α

/-- Whether `response.raise_for_status()` passes: requests raises for
status codes of 400 and above. -/
def statusOk (s : ℕ) : Bool := s < 400

/-- `NotionArchiver.copy_blocks_to_page` (archive_last_week.py lines
437-505), which the daily-log variant (create_daily_log.py lines 201-274)
repeats with only different sleep calls.  The remote service is an
environment: `appendStatus b` is the HTTP status of the single-block
append issued for `b` (a non-2xx status raises, is caught at lines
504-505 and the loop continues with the next sibling), and `childOk b`
is whether the whole `copy_child_page_recursive` call for a child-page
block succeeds (its failures are caught at lines 458-459, and it creates
no page under the target when its internal page creation fails).  The
result is the ordered list of children the destination receives.  Child
blocks of an appended block are copied into the created block, not the
target, and so do not appear at this level. -/
def copy_blocks_to_page (appendStatus : Block α → ℕ) (childOk : Block α → Bool) :
    List (Block α) → List (DestEntry α)
  | [] => []
  | Block.mk t content hc ch i :: rest =>
      (match t with
       | some bt =>
           if bt = "child_page" then
             if childOk (Block.mk t content hc ch i) then
               [DestEntry.childPage i]
             else []
           else if bt = "child_database" then []
           else
             match clean_block_for_copy (Block.mk t content hc ch i) with
             | none => []
             | some cb =>
                 if statusOk (appendStatus (Block.mk t content hc ch i)) then
                   [DestEntry.appended cb
                     (if hc then copy_blocks_to_page appendStatus childOk ch
                      else [])]
                 else []
       | none => []) ++ copy_blocks_to_page appendStatus childOk rest

/-- The remote environment seen by one `NotionArchiver.move_page` call:
whether fetching the source block list succeeds and what it returns,
whether creating the destination page succeeds, the per-block append
statuses and child-page outcomes, and whether the final archive-flag
update succeeds. -/
structure MoveEnv (α : Type) : Type where
  getBlocksOk : Bool
  sourceBlocks : List (Block α)
  createOk : Bool
  appendStatus : Block α → ℕ
  childOk : Block α → Bool
  deleteOk : Bool

/-- `NotionArchiver.get_page_blocks` (archive_last_week.py lines 231-257):
on any request failure the exception is caught and an empty list is
returned. -/
def get_page_blocks (env : MoveEnv α) : List (Block α) :=
  if env.getBlocksOk then env.sourceBlocks else []

/-- The observable outcome of one `move_page` call: the returned flag,
whether the archive-flag update on the source (`delete_page`) was
attempted, and the children the destination page received. -/
structure MoveOutcome (α : Type) : Type where
  result : Bool
  deleteAttempted : Bool
  copiedEntries : List (DestEntry α)
deriving instance Inhabited for MoveOutcome

/-- `NotionArchiver.move_page` (archive_last_week.py lines 561-597): fetch
the source blocks (failures swallowed into an empty list), create the
destination page (on failure return False without touching the source),
copy the blocks (per-block failures swallowed inside the loop), then call
`delete_page` on the source unconditionally; the returned flag is False
only when page creation or the delete call itself failed. -/
def move_page (env : MoveEnv α) : MoveOutcome α :=
  let content := get_page_blocks env
  if env.createOk = false then
    ⟨false, false, []⟩
  else
    let copied := copy_blocks_to_page env.appendStatus env.childOk content
    if env.deleteOk then ⟨true, true, copied⟩ else ⟨false, true, copied⟩

/-- The identity of a destination child, forgetting the copies nested
inside an appended block: the cleaned block for a single-block append, or
the source block id for a replicated child page. -/
def destTag : DestEntry α → CleanBlock α ⊕ String
  | .appended cb _ => Sum.inl cb
  | .childPage i => Sum.inr i

/-- Which destination child a source block contributes when no remote call
fails: a child page contributes its replication marker, a child database
and an unsanitizable block are filtered out, and every other block
contributes its cleaned form.  This is the claim's notion of "the elements
of B that are not filtered out", read off the branches of the copy loop. -/
def srcTag (b : Block α) : Option (CleanBlock α ⊕ String) :=
  match b.btype with
  | some bt =>
      if bt = "child_page" then some (Sum.inr b.bid)
      else if bt = "child_database" then none
      else (clean_block_for_copy b).map Sum.inl
  | none => none

end ArchiveLastWeek

namespace CreateDailyLog

/-- The remote environment seen by the daily-log engine, keyed by the day
number of the target date.  Each calendar date determines a unique
canonical title string `"<year>-yeon <month>-wol <day>-il (<weekday>)"`,
so the exact-title existence query of `check_existing_log` is keyed here
directly by the date: `pageExists d` is whether the collection holds a
page whose title is the canonical title of day `d`, `queryOk d` is
whether that existence query succeeds on the wire, and `duplicateOk d`
is whether the whole `duplicate_page` call for day `d` (page creation
plus template fetch) succeeds rather than raising. -/
structure DailyEnv : Type where
  pageExists : ℕ → Bool
  queryOk : ℕ → Bool
  duplicateOk : ℕ → Bool

/-- `NotionWorkLogCreator.check_existing_log` (create_daily_log.py lines
423-453): run the exact-title query and report whether it returned any
result; on any request failure the exception is caught and False is
returned (the comment at line 452 reads "on check failure, proceed
safely"). -/
def check_existing_log (env : DailyEnv) (d : ℕ) : Bool :=
  if env.queryOk d then env.pageExists d else false

/-- The outcome of `create_work_log` for one target date: skipped because
the date is a weekend, skipped because the existence check reported an
existing log, created, or aborted by an exception raised while
duplicating the template. -/
inductive LogOutcome : Type where
  | skippedWeekend : LogOutcome
  | skippedExists : LogOutcome
  | created : LogOutcome
  | failed : LogOutcome
deriving DecidableEq

/-- `NotionWorkLogCreator.create_work_log` (create_daily_log.py lines
455-482): return early when the date is a weekend; return early when
`check_existing_log` reports an existing log; otherwise run
`duplicate_page`, whose exception (page creation or template fetch
failure) propagates out uncaught. -/
def create_work_log (env : DailyEnv) (d : ℕ) : LogOutcome :=
  if is_weekend d then LogOutcome.skippedWeekend
  else if check_existing_log env d then LogOutcome.skippedExists
  else if env.duplicateOk d then LogOutcome.created
  else LogOutcome.failed

/-- `NotionWorkLogCreator.create_daily_log` (create_daily_log.py lines
484-503): run `create_work_log` for today and then for the next business
day.  An exception from the first call propagates (it is logged and
re-raised at lines 501-503), so the second date is processed only when
the first did not fail. -/
def create_daily_log (env : DailyEnv) (today : ℕ) :
    LogOutcome × Option LogOutcome :=
  let r1 := create_work_log env today
  if r1 = LogOutcome.failed then (r1, none)
  else (r1, some (create_work_log env (get_next_business_day today)))

end CreateDailyLog

/-! ## Theorems -/

namespace CreateDailyLog

/-- The skip loop leaves a business day unchanged. -/
theorem skipWeekendLoop_of_lt (d : ℕ) (h : d % 7 < 5) : skipWeekendLoop d = d := by
  rw [skipWeekendLoop, if_neg (by omega)]

/-- The skip loop advances a Sunday by one day. -/
theorem skipWeekendLoop_sun (d : ℕ) (h : d % 7 = 6) : skipWeekendLoop d = d + 1 := by
  rw [skipWeekendLoop, if_pos (by omega)]
  exact skipWeekendLoop_of_lt _ (by omega)

/-- The skip loop advances a Saturday by two days. -/
theorem skipWeekendLoop_sat (d : ℕ) (h : d % 7 = 5) : skipWeekendLoop d = d + 2 := by
  rw [skipWeekendLoop, if_pos (by omega)]
  rw [skipWeekendLoop_sun _ (by omega)]

/-- C5: `get_next_business_day` maps a Saturday or Sunday to the following
Monday (the unique next day with weekday 0), maps Monday through Thursday
to the next calendar day, maps Friday to the following Monday three days
later, and always lands on a weekday in Monday..Friday.  Days are numbered
so that day 0 is a Monday and `weekday d = d % 7` matches Python's
`date.weekday()`. -/
theorem nextBusinessDay_correct (d : ℕ) :
    ((d % 7 = 5 ∨ d % 7 = 6) →
        get_next_business_day d = d + (7 - d % 7) ∧
        get_next_business_day d % 7 = 0) ∧
    (d % 7 ≤ 3 → get_next_business_day d = d + 1) ∧
    (d % 7 = 4 →
        get_next_business_day d = d + 3 ∧ get_next_business_day d % 7 = 0) ∧
    get_next_business_day d % 7 < 5 := by
  unfold get_next_business_day
  by_cases h5 : (d + 1) % 7 = 5
  · rw [skipWeekendLoop_sat _ h5]
    exact ⟨fun h => ⟨by omega, by omega⟩, fun h => by omega,
           fun h => ⟨by omega, by omega⟩, by omega⟩
  · by_cases h6 : (d + 1) % 7 = 6
    · rw [skipWeekendLoop_sun _ h6]
      exact ⟨fun h => ⟨by omega, by omega⟩, fun h => by omega,
             fun h => ⟨by omega, by omega⟩, by omega⟩
    · rw [skipWeekendLoop_of_lt _ (by omega)]
      exact ⟨fun h => ⟨by omega, by omega⟩, fun h => by omega,
             fun h => ⟨by omega, by omega⟩, by omega⟩

/-- Witness for C5 at day 5, a Saturday: the next business day is day 7,
the following Monday. -/
theorem nextBusinessDay_correct_witness :
    get_next_business_day 5 = 5 + (7 - 5 % 7) ∧ get_next_business_day 5 % 7 = 0 :=
  (nextBusinessDay_correct 5).1 (Or.inl rfl)

end CreateDailyLog

namespace ArchiveLastWeek

/-- C3 counterexample: from a fresh limiter (minimum 1/5, streak 0,
interval 1) ten consecutive `record_success` calls leave the adaptive
interval untouched at 1 and the streak at 10 — the claimed decay to
0.95 and streak reset after exactly 10 successes does not happen,
because the code tests `consecutive_successes > 10`. -/
theorem record_success_ten_no_decay :
    Nat.iterate record_success 10 ⟨mkRat 1 5, 0, 1⟩ =
      (⟨mkRat 1 5, 10, 1⟩ : RateLimiterState) ∧
    (Nat.iterate record_success 10
        (⟨mkRat 1 5, 0, 1⟩ : RateLimiterState)).adaptive_interval ≠ 19/20 ∧
    (Nat.iterate record_success 10
        (⟨mkRat 1 5, 0, 1⟩ : RateLimiterState)).consecutive_successes ≠ 0 := by
  have h1 : Nat.iterate record_success 10
      (⟨mkRat 1 5, 0, 1⟩ : RateLimiterState) = ⟨mkRat 1 5, 10, 1⟩ := by decide
  refine ⟨h1, ?_, by decide⟩
  rw [h1]
  show (1 : ℚ) ≠ 19/20
  norm_num

/-- C3 amended: the decay fires on the success that takes the streak past
10 — the 11th consecutive success — multiplying the adaptive interval by
0.95 floored at the configured minimum and resetting the streak to zero,
while each of the first 10 successes only increments the streak and leaves
the interval unchanged. -/
theorem record_success_decay_on_eleventh (s : RateLimiterState) :
    (s.consecutive_successes = 10 →
        record_success s =
          ⟨s.min_interval, 0,
           max (s.adaptive_interval * (19/20)) s.min_interval⟩) ∧
    (s.consecutive_successes < 10 →
        record_success s =
          ⟨s.min_interval, s.consecutive_successes + 1, s.adaptive_interval⟩) := by
  constructor
  · intro h
    simp only [record_success]
    rw [if_pos (by omega)]
  · intro h
    simp only [record_success]
    rw [if_neg (by omega)]

/-- Witness for the amended C3 at a limiter with streak 10: the 11th
success decays the interval and resets the streak. -/
theorem record_success_decay_on_eleventh_witness :
    record_success ⟨1/5, 10, 1⟩ =
      (⟨1/5, 0, max ((1 : ℚ) * (19/20)) (1/5)⟩ : RateLimiterState) :=
  (record_success_decay_on_eleventh ⟨1/5, 10, 1⟩).1 rfl

end ArchiveLastWeek

namespace CreateDailyLog

/-- C6: the sanitizer returns absent for a block with no recognizable kind
tag and for the kinds child_page, child_database, link_preview and
unsupported, so the copy loop skips them. -/
theorem clean_skips_structural_and_unsupported {α : Type} (b : Block α)
    (h : b.btype = none ∨ b.btype = some "child_page" ∨
         b.btype = some "child_database" ∨ b.btype = some "link_preview" ∨
         b.btype = some "unsupported") :
    clean_block_for_copy b = none := by
  obtain ⟨t, c, hc, ch, i⟩ := b
  simp only [Block.btype] at h
  rcases h with h | h | h | h | h <;> subst h <;> rfl

/-- Witness for C6 on a concrete child_page block. -/
theorem clean_skips_structural_and_unsupported_witness :
    clean_block_for_copy (Block.mk (some "child_page") [("title", (0 : ℕ))]
      true [] "pg") = none :=
  clean_skips_structural_and_unsupported _ (Or.inr (Or.inl rfl))

/-- Every key the field-copy loop adds to an accumulator free of read-only
keys passed the read-only filter, so the result is still free of them. -/
theorem copyRemainingFields_no_readonly {α : Type} (l : List (String × α)) :
    ∀ acc : List (String × α),
      (∀ p ∈ acc, p.1 ∉ readonly_fields) →
      ∀ p ∈ copyRemainingFields acc l, p.1 ∉ readonly_fields := by
  induction l with
  | nil =>
      intro acc hacc
      simpa [copyRemainingFields] using hacc
  | cons kv rest ih =>
      intro acc hacc
      obtain ⟨k, v⟩ := kv
      simp only [copyRemainingFields]
      by_cases hcond : k ∉ readonly_fields ∧ hasKey k acc = false
      · rw [if_pos hcond]
        refine ih _ ?_
        intro p hp
        rcases List.mem_append.mp hp with h | h
        · exact hacc p h
        · rcases List.mem_singleton.mp h with rfl
          exact hcond.1
      · rw [if_neg hcond]
        exact ih _ hacc

/-- C7: whenever the sanitizer returns a cleaned block, its payload carries
none of the fixed read-only fields (id, created_time, last_edited_time,
created_by, last_edited_by, has_children, archived, parent), whatever the
original payload contained; and every block of an empty kind (divider,
breadcrumb, table_of_contents) is cleaned to a payload-free record of that
kind. -/
theorem clean_strips_readonly_and_empty_kinds {α : Type} :
    (∀ (b : Block α) (cb : CleanBlock α),
        clean_block_for_copy b = some cb →
        ∀ p ∈ cb.payload, p.1 ∉ readonly_fields) ∧
    (∀ (b : Block α) (bt : String), b.btype = some bt →
        bt ∈ empty_block_types →
        clean_block_for_copy b = some ⟨bt, []⟩) := by
  constructor
  · intro b cb h p hp
    obtain ⟨t, c, hc, ch, i⟩ := b
    cases t with
    | none => exact absurd h (by simp [clean_block_for_copy, Block.btype])
    | some bt =>
        simp only [clean_block_for_copy, Block.btype, Block.content] at h
        by_cases h0 : bt = ""
        · rw [if_pos h0] at h; exact absurd h (by simp)
        rw [if_neg h0] at h
        by_cases h1 : bt = "child_page" ∨ bt = "child_database"
        · rw [if_pos h1] at h; exact absurd h (by simp)
        rw [if_neg h1] at h
        by_cases h2 : bt ∈ unsupported_blocks
        · rw [if_pos h2] at h; exact absurd h (by simp)
        rw [if_neg h2] at h
        by_cases h3 : bt ∈ empty_block_types
        · rw [if_pos h3] at h
          obtain rfl : cb = ⟨bt, []⟩ := by
            exact (Option.some_inj.mp h).symm
          simp at hp
        · rw [if_neg h3] at h
          obtain rfl : cb =
              ⟨bt, copyRemainingFields
                (match lookupKey "rich_text" c with
                 | some v => [("rich_text", v)]
                 | none => []) c⟩ := by
            exact (Option.some_inj.mp h).symm
          refine copyRemainingFields_no_readonly c _ ?_ p hp
          intro q hq
          cases hrt : lookupKey "rich_text" c with
          | none => rw [hrt] at hq; simp at hq
          | some v =>
              rw [hrt] at hq
              rcases List.mem_singleton.mp hq with rfl
              show ("rich_text" : String) ∉ readonly_fields
              decide
  · intro b bt ht hmem
    obtain ⟨t, c, hc, ch, i⟩ := b
    simp only [Block.btype] at ht
    subst ht
    simp only [empty_block_types, List.mem_cons, List.mem_singleton,
               List.not_mem_nil, or_false] at hmem
    rcases hmem with rfl | rfl | rfl <;> rfl

/-- Witness for C7 on a concrete heading block whose payload carries an id
and an archived flag: the cleaned payload drops both, and a concrete
divider block is cleaned to a payload-free record. -/
theorem clean_strips_readonly_and_empty_kinds_witness :
    (∀ p ∈ (CleanBlock.payload
        ⟨"heading_2", copyRemainingFields [("rich_text", (7 : ℕ))]
          [("rich_text", 7), ("id", 1), ("archived", 0), ("color", 3)]⟩),
        p.1 ∉ readonly_fields) ∧
    clean_block_for_copy
        (Block.mk (some "divider") [("id", (5 : ℕ))] false [] "dv") =
      some ⟨"divider", []⟩ :=
  ⟨clean_strips_readonly_and_empty_kinds.1
      (Block.mk (some "heading_2")
        [("rich_text", 7), ("id", 1), ("archived", 0), ("color", 3)] false [] "h2")
      _ rfl,
   clean_strips_readonly_and_empty_kinds.2
      (Block.mk (some "divider") [("id", (5 : ℕ))] false [] "dv") "divider" rfl
      (by decide)⟩

end CreateDailyLog

/-- The field-copy loops of the daily-log and weekly-archive sanitizers
agree on every accumulator and payload. -/
theorem copyFields_CDL_eq_ALW {α : Type} (l acc : List (String × α)) :
    CreateDailyLog.copyRemainingFields acc l =
      ArchiveLastWeek.copyRemainingFields acc l := by
  induction l generalizing acc with
  | nil => rfl
  | cons kv rest ih =>
      obtain ⟨k, v⟩ := kv
      simp only [CreateDailyLog.copyRemainingFields,
                 ArchiveLastWeek.copyRemainingFields]
      rw [show CreateDailyLog.readonly_fields = ArchiveLastWeek.readonly_fields
            from rfl]
      by_cases hcond : k ∉ ArchiveLastWeek.readonly_fields ∧ hasKey k acc = false
      · rw [if_pos hcond, if_pos hcond]; exact ih _
      · rw [if_neg hcond, if_neg hcond]; exact ih _

/-- The field-copy loops of the daily-log and single-page sanitizers agree
on every accumulator and payload. -/
theorem copyFields_CDL_eq_ASP {α : Type} (l acc : List (String × α)) :
    CreateDailyLog.copyRemainingFields acc l =
      ArchiveSinglePage.copyRemainingFields acc l := by
  induction l generalizing acc with
  | nil => rfl
  | cons kv rest ih =>
      obtain ⟨k, v⟩ := kv
      simp only [CreateDailyLog.copyRemainingFields,
                 ArchiveSinglePage.copyRemainingFields]
      rw [show CreateDailyLog.readonly_fields = ArchiveSinglePage.readonly_fields
            from rfl]
      by_cases hcond : k ∉ ArchiveSinglePage.readonly_fields ∧ hasKey k acc = false
      · rw [if_pos hcond, if_pos hcond]; exact ih _
      · rw [if_neg hcond, if_neg hcond]; exact ih _

/-- C10: the three duplicated sanitizer implementations — in
create_daily_log.py, archive_last_week.py and archive_single_page.py —
are extensionally equal: on every input block all three return the same
cleaned block or the same absent result. -/
theorem sanitizers_extensionally_equal {α : Type} (b : Block α) :
    CreateDailyLog.clean_block_for_copy b = ArchiveLastWeek.clean_block_for_copy b ∧
    CreateDailyLog.clean_block_for_copy b = ArchiveSinglePage.clean_block_for_copy b := by
  obtain ⟨t, c, hc, ch, i⟩ := b
  cases t with
  | none => exact ⟨rfl, rfl⟩
  | some bt =>
      constructor
      · simp only [CreateDailyLog.clean_block_for_copy,
                   ArchiveLastWeek.clean_block_for_copy, Block.btype,
                   Block.content, copyFields_CDL_eq_ALW]
        rw [show CreateDailyLog.unsupported_blocks =
              ArchiveLastWeek.unsupported_blocks from rfl,
            show CreateDailyLog.empty_block_types =
              ArchiveLastWeek.empty_block_types from rfl]
      · simp only [CreateDailyLog.clean_block_for_copy,
                   ArchiveSinglePage.clean_block_for_copy, Block.btype,
                   Block.content, copyFields_CDL_eq_ASP]
        rw [show CreateDailyLog.unsupported_blocks =
              ArchiveSinglePage.unsupported_blocks from rfl,
            show CreateDailyLog.empty_block_types =
              ArchiveSinglePage.empty_block_types from rfl]

namespace ArchiveLastWeek

/-- C4: when every single-block append and every child-page replication
succeeds, the ordered sequence of children the destination receives from
`copy_blocks_to_page` is exactly the cleaned forms of the source blocks
that are not filtered out, in source sibling order — each append completes
before the next sibling is processed, so no reordering can occur. -/
theorem copy_preserves_sibling_order {α : Type}
    (appendStatus : Block α → ℕ) (childOk : Block α → Bool)
    (bs : List (Block α))
    (hA : ∀ b, statusOk (appendStatus b) = true)
    (hC : ∀ b, childOk b = true) :
    (copy_blocks_to_page appendStatus childOk bs).map destTag =
      bs.filterMap srcTag := by
  induction bs with
  | nil => simp [copy_blocks_to_page]
  | cons b rest ih =>
      obtain ⟨t, c, hc, ch, i⟩ := b
      rw [copy_blocks_to_page.eq_def]
      dsimp only
      rw [List.map_append, ih, List.filterMap_cons]
      cases t with
      | none => simp [srcTag, Block.btype]
      | some bt =>
          by_cases h1 : bt = "child_page"
          · subst h1
            simp [srcTag, Block.btype, Block.bid, destTag, hC]
          · by_cases h2 : bt = "child_database"
            · subst h2
              simp [srcTag, Block.btype, h1]
            · cases hcl : clean_block_for_copy (Block.mk (some bt) c hc ch i) with
              | none => simp [srcTag, Block.btype, h1, h2, hcl]
              | some cb =>
                  simp [srcTag, Block.btype, h1, h2, hcl, hA, destTag]

/-- Witness for C4: a paragraph, a child page and a filtered-out
link_preview, all calls succeeding; the destination order matches the
source order of the two surviving elements. -/
theorem copy_preserves_sibling_order_witness :
    (copy_blocks_to_page (fun _ => 200) (fun _ => true)
        [Block.mk (some "paragraph") [("rich_text", (7 : ℕ))] false [] "a",
         Block.mk (some "child_page") [("title", 1)] true [] "p",
         Block.mk (some "link_preview") [] false [] "l"]).map destTag =
      [Block.mk (some "paragraph") [("rich_text", (7 : ℕ))] false [] "a",
       Block.mk (some "child_page") [("title", 1)] true [] "p",
       Block.mk (some "link_preview") [] false [] "l"].filterMap srcTag :=
  copy_preserves_sibling_order _ _ _ (fun _ => rfl) (fun _ => rfl)

/-- C2 counterexample: a sanitizable paragraph block whose single-block
append receives HTTP 429 is simply dropped from the destination — the
rate-limit response is treated like any other request failure at
archive_last_week.py lines 504-505, not handled transparently, and
`handle_rate_limit_error` has no caller on the replication path. -/
theorem rate_limited_append_drops_block :
    clean_block_for_copy
        (Block.mk (some "paragraph") [("rich_text", (0 : ℕ))] false [] "b0") =
      some ⟨"paragraph", [("rich_text", 0)]⟩ ∧
    copy_blocks_to_page (fun _ => 429) (fun _ => true)
        [Block.mk (some "paragraph") [("rich_text", (0 : ℕ))] false [] "b0"] =
      [] := by
  refine ⟨rfl, ?_⟩
  simp [copy_blocks_to_page, clean_block_for_copy, Block.btype, Block.content,
        statusOk, unsupported_blocks, empty_block_types]

/-- C2 amended: `handle_rate_limit_error` itself does sleep for the
signalled Retry-After duration (default 2 seconds) and multiply the
adaptive interval by 1.5 capped at 1.0 second on a 429 response, and
leaves everything unchanged otherwise — but no replication call path ever
invokes it: a 429 received by a single-block append raises, is caught as
an ordinary request failure, and the affected block is skipped rather
than retried. -/
theorem rate_limit_handler_behavior_and_unused :
    (∀ (s : RateLimiterState) (r : HttpResponse), r.status = 429 →
        handle_rate_limit_error s r =
          (true, r.retryAfterHeader.getD 2,
           ⟨s.min_interval, s.consecutive_successes,
            min (s.adaptive_interval * (3/2)) 1⟩)) ∧
    (∀ (s : RateLimiterState) (r : HttpResponse), r.status ≠ 429 →
        handle_rate_limit_error s r = (false, 0, s)) ∧
    (∀ (b : Block ℕ) (cb : CleanBlock ℕ),
        clean_block_for_copy b = some cb →
        copy_blocks_to_page (fun _ => 429) (fun _ => true) [b] = []) := by
  refine ⟨?_, ?_, ?_⟩
  · intro s r h
    simp only [handle_rate_limit_error]
    rw [if_pos h]
  · intro s r h
    simp only [handle_rate_limit_error]
    rw [if_neg h]
  · intro b cb h
    obtain ⟨t, c, hc, ch, i⟩ := b
    cases t with
    | none => exact absurd h (by simp [clean_block_for_copy, Block.btype])
    | some bt =>
        have h1 : bt ≠ "child_page" := by
          intro hq; subst hq
          exact absurd h (by simp [clean_block_for_copy, Block.btype])
        have h2 : bt ≠ "child_database" := by
          intro hq; subst hq
          exact absurd h (by simp [clean_block_for_copy, Block.btype])
        simp only [copy_blocks_to_page]
        simp [h1, h2, h, statusOk]

/-- Witness for the amended C2: the 429 branch of the handler at a
concrete state and response, applied through the theorem. -/
theorem rate_limit_handler_behavior_and_unused_witness :
    handle_rate_limit_error ⟨mkRat 1 5, 3, 1⟩ ⟨429, some 7⟩ =
      (true, (some 7).getD 2,
       ⟨mkRat 1 5, 3, min ((1 : ℚ) * (3/2)) 1⟩) :=
  rate_limit_handler_behavior_and_unused.1 ⟨mkRat 1 5, 3, 1⟩ ⟨429, some 7⟩ rfl

/-- C1 counterexample: a candidate whose destination page is created and
whose source holds one paragraph block, but every single-block append
fails with HTTP 429: replication of the content fails entirely (the
destination receives nothing), yet `move_page` still calls `delete_page`
on the source and even reports the candidate as a success. -/
theorem move_page_deletes_after_failed_replication :
    (move_page ⟨true,
        [Block.mk (some "paragraph") [("rich_text", (0 : ℕ))] false [] "b0"],
        true, fun _ => 429, fun _ => true, true⟩).copiedEntries = [] ∧
    (move_page ⟨true,
        [Block.mk (some "paragraph") [("rich_text", (0 : ℕ))] false [] "b0"],
        true, fun _ => 429, fun _ => true, true⟩).deleteAttempted = true ∧
    (move_page ⟨true,
        [Block.mk (some "paragraph") [("rich_text", (0 : ℕ))] false [] "b0"],
        true, fun _ => 429, fun _ => true, true⟩).result = true := by
  refine ⟨?_, rfl, rfl⟩
  simp [move_page, get_page_blocks, copy_blocks_to_page, clean_block_for_copy,
        Block.btype, Block.content, statusOk, unsupported_blocks,
        empty_block_types]

/-- C1 amended: the only replication step that guards the archival delete
is the creation of the destination page — `delete_page` is attempted if
and only if `create_page` succeeded, and a creation failure leaves the
source unmodified with the candidate reported failed; failures while
fetching the source blocks (swallowed into an empty list) or while
appending individual blocks (swallowed inside the copy loop) do not
prevent deletion, and the candidate is reported successful whenever
creation and deletion succeed, regardless of content-replication
failures. -/
theorem move_page_guard_only_on_create {α : Type} (env : MoveEnv α) :
    (move_page env).deleteAttempted = env.createOk ∧
    ((move_page env).result = true ↔
        env.createOk = true ∧ env.deleteOk = true) := by
  unfold move_page
  cases hcr : env.createOk <;> cases hd : env.deleteOk <;> simp [hcr, hd]

end ArchiveLastWeek

namespace CreateDailyLog

/-- C8: when the existence lookup is reliable and template duplication
succeeds, each of the two target dates — today and the next business day —
gets a page created exactly when the date is not a weekend and no page
with its canonical title exists; a weekend date is skipped as a weekend,
an existing title is skipped as existing (both terminal for the run), and
the run processes precisely those two dates. -/
theorem create_daily_log_create_iff (env : DailyEnv) (today : ℕ)
    (hq : ∀ d, env.queryOk d = true)
    (hdup : ∀ d, env.duplicateOk d = true) :
    (∀ d, d = today ∨ d = get_next_business_day today →
        ((create_work_log env d = LogOutcome.created ↔
            is_weekend d = false ∧ env.pageExists d = false) ∧
         (is_weekend d = true →
            create_work_log env d = LogOutcome.skippedWeekend) ∧
         (is_weekend d = false → env.pageExists d = true →
            create_work_log env d = LogOutcome.skippedExists))) ∧
    create_daily_log env today =
      (create_work_log env today,
       some (create_work_log env (get_next_business_day today))) := by
  have hwl : ∀ d, create_work_log env d ≠ LogOutcome.failed := by
    intro d
    unfold create_work_log check_existing_log
    rw [hq d, hdup d]
    cases hw : is_weekend d <;> cases hex : env.pageExists d <;> simp
  constructor
  · intro d _
    unfold create_work_log check_existing_log
    rw [hq d, hdup d]
    cases hw : is_weekend d <;> cases hex : env.pageExists d <;> simp
  · unfold create_daily_log
    rw [if_neg (hwl today)]

/-- Witness for C8: an empty collection with a healthy wire and a Monday
start: both target dates end in the created state. -/
theorem create_daily_log_create_iff_witness :
    create_daily_log ⟨fun _ => false, fun _ => true, fun _ => true⟩ 0 =
      (create_work_log ⟨fun _ => false, fun _ => true, fun _ => true⟩ 0,
       some (create_work_log ⟨fun _ => false, fun _ => true, fun _ => true⟩
         (get_next_business_day 0))) :=
  (create_daily_log_create_iff ⟨fun _ => false, fun _ => true, fun _ => true⟩ 0
    (fun _ => rfl) (fun _ => rfl)).2

/-- C9 (implicit): when the existence query itself fails on the wire,
`check_existing_log` swallows the exception and returns false, so on a
business day with a healthy duplication path `create_work_log` proceeds
to create the page — even when a page with the same canonical title
already exists in the collection, producing a duplicate. -/
theorem failed_lookup_creates_duplicate (env : DailyEnv) (d : ℕ)
    (hq : env.queryOk d = false) :
    check_existing_log env d = false ∧
    (is_weekend d = false → env.duplicateOk d = true →
        create_work_log env d = LogOutcome.created) := by
  constructor
  · unfold check_existing_log
    rw [hq]
    simp
  · intro hw hdup
    unfold create_work_log check_existing_log
    rw [hq, hw, hdup]
    simp

/-- Witness for C9 on a Monday whose log already exists but whose
existence query fails: the duplicate page is created anyway. -/
theorem failed_lookup_creates_duplicate_witness :
    check_existing_log ⟨fun _ => true, fun _ => false, fun _ => true⟩ 0 = false ∧
    create_work_log ⟨fun _ => true, fun _ => false, fun _ => true⟩ 0 =
      LogOutcome.created :=
  ⟨(failed_lookup_creates_duplicate ⟨fun _ => true, fun _ => false, fun _ => true⟩
      0 rfl).1,
   (failed_lookup_creates_duplicate ⟨fun _ => true, fun _ => false, fun _ => true⟩
      0 rfl).2 rfl rfl⟩

end CreateDailyLog

end NotionDailyLog
